import Mathlib

/-!
Shallow embedding of the picap capture/decoder core (src/picap.go) and proofs
of the specified properties.

The Go code depends on two external libraries whose behaviour it consumes but
does not define: gopacket (which presents a captured packet as an optional
stack of layers plus metadata) and pcap (which opens live/offline capture
handles).  Following the code, a captured packet is modelled by the layered
view gopacket hands to `reifyPacket`: an optional error layer, a metadata
length, and optional network / transport / application layers.  The result of
the Go standard library call `http.ReadRequest` on the application payload is
carried on the application layer as an oracle field, since the decoder only
branches on whether that call succeeded and on the fields of the parsed
request.
-/

namespace Picap

/-- The nine TCP control flags copied by `reifyPacket`
(src/picap.go lines 146-156, the anonymous `TCP` struct inside `Packet`). -/
structure TCPFlags where
  FIN : Bool
  SYN : Bool
  RST : Bool
  PSH : Bool
  ACK : Bool
  URG : Bool
  ECE : Bool
  CWR : Bool
  NS : Bool
deriving DecidableEq, Repr

/-- The Go zero value of the `TCP` sub-struct: all flags false. -/
def TCPFlags.zero : TCPFlags :=
  ⟨false, false, false, false, false, false, false, false, false⟩

/-- The `HTTP` sub-struct of `Packet` (src/picap.go lines 160-164). -/
structure HTTPInfo where
  Hostname : String
  UserAgent : String
  Method : String
deriving DecidableEq, Repr

/-- The Go zero value of the `HTTP` sub-struct: all fields empty. -/
def HTTPInfo.zero : HTTPInfo := ⟨"", "", ""⟩

/-- The `Packet` output record of the decoder (src/picap.go lines 136-165).
Field names and order follow the Go struct.  In Go the `TCP` and `HTTP`
sub-structs are always structurally present and merely left at their zero
value when the corresponding layer is absent; the model keeps that encoding. -/
structure Packet where
  Length : Int
  NetProto : String
  NetSrc : String
  NetDst : String
  TransProto : String
  TransSrc : String
  TransDst : String
  TCP : TCPFlags
  AppProto : String
  HTTP : HTTPInfo
deriving DecidableEq, Repr

/-- The Go zero value `&Packet{}` allocated at the top of `reifyPacket`. -/
def Packet.zero : Packet :=
  ⟨0, "", "", "", "", "", "", TCPFlags.zero, "", HTTPInfo.zero⟩

/-- A gopacket flow: the two endpoints returned by `Endpoints()`, as strings,
in source to destination order. -/
structure Flow where
  src : String
  dst : String
deriving DecidableEq, Repr

/-- The network layer as consumed by `reifyPacket` (src/picap.go lines
174-183): its `LayerType().String()` and its `NetworkFlow()` endpoints. -/
structure NetworkLayer where
  layerType : String
  flow : Flow
deriving DecidableEq, Repr

/-- The transport layer as consumed by `reifyPacket` (src/picap.go lines
185-206): its `LayerType().String()`, its `TransportFlow()` endpoints, and the
result of the dynamic type check `transLayer.(*layers.TCP)` — `some flags`
exactly when the concrete layer value is a `*layers.TCP`, carrying its nine
flag fields. -/
structure TransportLayer where
  layerType : String
  flow : Flow
  tcp : Option TCPFlags
deriving DecidableEq, Repr

/-- The parsed HTTP request as consumed by `reifyPacket` (src/picap.go lines
213-217): `req.Method`, `req.Host`, and `req.UserAgent()` (the `User-Agent`
header value, empty when the header is absent — that is the behaviour of the
Go standard library accessor the code calls). -/
structure HTTPRequest where
  method : String
  host : String
  userAgent : String
deriving DecidableEq, Repr

/-- The application layer as consumed by `reifyPacket` (src/picap.go lines
207-224): its `LayerType().String()` and the outcome of the Go standard
library call `http.ReadRequest(bufio.NewReader(bytes.NewBuffer(Payload())))`
on its payload, recorded as an oracle: `some req` when that call returned a
request with nil error, `none` when it returned a non-nil error.  The decoder
uses nothing else of the payload bytes. -/
structure AppLayer where
  layerType : String
  httpRequest : Option HTTPRequest
deriving DecidableEq, Repr

/-- A captured packet through the gopacket interface `reifyPacket` consumes:
`ErrorLayer()` (outer `none` = no error layer; `some none` = an error layer
whose `Error()` is nil; `some (some msg)` = an error layer whose `Error()` is
a non-nil error with message `msg`), `Metadata().Length`, `NetworkLayer()`,
`TransportLayer()` and `ApplicationLayer()`. -/
structure RawPacket where
  errorLayer : Option (Option String)
  length : Int
  networkLayer : Option NetworkLayer
  transportLayer : Option TransportLayer
  appLayer : Option AppLayer
deriving DecidableEq, Repr

/-- True exactly when `pkt.ErrorLayer() != nil && pkt.ErrorLayer().Error() != nil`,
the condition tested first in `reifyPacket` (src/picap.go line 169). -/
def RawPacket.hasDecodeError (pkt : RawPacket) : Bool :=
  match pkt.errorLayer with
  | some (some _) => true
  | _ => false

/-- `reifyPacket` (src/picap.go lines 167-227), translated statement by
statement.  Returns the record together with the Go error (`none` = nil).
`errors.Wrap(err, "decoding packet")` produces the message
`"decoding packet: " ++ msg`. -/
def reifyPacket (pkt : RawPacket) : Packet × Option String :=
  let pr := Packet.zero
  match pkt.errorLayer with
  | some (some msg) => (pr, some ("decoding packet: " ++ msg))
  | _ =>
    let pr := { pr with Length := pkt.length }
    match pkt.networkLayer with
    | none => (pr, none)
    | some nl =>
      let pr := { pr with NetProto := nl.layerType,
                          NetSrc := nl.flow.src, NetDst := nl.flow.dst }
      match pkt.transportLayer with
      | none => (pr, none)
      | some tl =>
        let pr := { pr with TransProto := tl.layerType,
                            TransSrc := tl.flow.src, TransDst := tl.flow.dst }
        let pr :=
          match tl.tcp with
          | some f => { pr with TCP := f }
          | none => pr
        match pkt.appLayer with
        | none => (pr, none)
        | some al =>
          let pr := { pr with AppProto := al.layerType }
          match al.httpRequest with
          | some req =>
            ({ pr with HTTP := ⟨req.host, req.userAgent, req.method⟩ }, none)
          | none => (pr, none)

/-- The `NetSource` state (src/picap.go lines 121-125).  `num` models the
`uint64` counter (arithmetic is taken mod 2^64); `packets` models the contents
of the channel produced by `gopacket.NewPacketSource(h, h.LinkType()).Packets()`.
For an offline handle that channel delivers the file's packets in order and is
then closed; a receive from the closed channel yields the nil packet, which the
list model represents by exhaustion (`[]`). -/
structure NetSource where
  num : Nat
  debug : Bool
  packets : List RawPacket
deriving DecidableEq, Repr

/-- Outcome of one call to `NetSource.Record`.  `ok rec err` is a normal
return of `reifyPacket`.  `panicked` is the Go runtime panic that occurs when
the packet channel has been closed (offline file exhausted): `<-n.packets`
yields the nil interface value and `reifyPacket` immediately calls
`pkt.ErrorLayer()` on it (src/picap.go line 169), a nil dereference. -/
inductive RecordOutcome where
  | ok (rec : Packet) (err : Option String)
  | panicked
deriving DecidableEq, Repr

/-- `NetSource.Record` (src/picap.go lines 127-134), sequentially: increment
the counter (`atomic.AddUint64`), load it, decide whether the diagnostic line
is logged (`n.debug && num%1000 == 20`), then receive a packet and decode it.
Returns (outcome, new state, whether the diagnostic line was logged). -/
def NetSource.Record (n : NetSource) : RecordOutcome × NetSource × Bool :=
  let num := (n.num + 1) % 2 ^ 64
  let logged := n.debug && num % 1000 == 20
  match n.packets with
  | [] => (RecordOutcome.panicked, { n with num := num }, logged)
  | p :: ps =>
    let r := reifyPacket p
    (RecordOutcome.ok r.1 r.2, { n with num := num, packets := ps }, logged)

/-- The observable steps of one `NetSource.Record` call, in program order. -/
inductive StepEvent where
  | counterIncrement
  | packetReceive
  | packetDecode
  | recordReturn
deriving DecidableEq, Repr

/-- The sequence of steps `NetSource.Record` performs (src/picap.go lines
127-134) read off the statement order: `atomic.AddUint64` first, then the
channel receive `<-n.packets`, then `reifyPacket`, then the return.  When the
channel is exhausted (closed), the receive still happens (yielding nil) and
the decode starts but panics, so no return step occurs. -/
def recordTrace (n : NetSource) : List StepEvent :=
  match n.packets with
  | [] => [StepEvent.counterIncrement, StepEvent.packetReceive]
  | _ :: _ => [StepEvent.counterIncrement, StepEvent.packetReceive,
               StepEvent.packetDecode, StepEvent.recordReturn]

/-- Drive `NetSource.Record` `k` times, collecting the outcomes in order. -/
def runRecords (n : NetSource) : Nat → List RecordOutcome × NetSource
  | 0 => ([], n)
  | k + 1 =>
    let (o, n1, _) := n.Record
    let (os, n2) := runRecords n1 k
    (o :: os, n2)

/-- A pcap handle as consumed by `NewNetSource`: `h.LinkType()` and the
packets the handle will deliver (in capture/file order) once wrapped in a
packet source. -/
structure Handle where
  linkType : String
  packets : List RawPacket
deriving DecidableEq, Repr

/-- The fields of `Main` (src/picap.go lines 20-35) that `NewNetSource` reads.
`Timeout` is a `time.Duration`, an integer nanosecond count. -/
structure Main where
  Iface : String
  Filename : String
  Snaplen : Int
  Promisc : Bool
  Timeout : Int
  Filter : String
  Debug : Bool
deriving DecidableEq, Repr

/-- The pcap library operations `NewNetSource` calls, as an environment of
oracles: `pcap.OpenOffline`, `pcap.OpenLive`, and `h.SetBPFFilter` (which on
success yields the handle with the filter installed, so that only matching
packets are delivered). -/
structure PcapEnv where
  openOffline : String → Except String Handle
  openLive : String → Int → Bool → Int → Except String Handle
  setBPFFilter : Handle → String → Except String Handle

/-- The open step of `NewNetSource` (src/picap.go lines 96-102): offline when
`Filename != ""`, live otherwise. -/
def openHandle (env : PcapEnv) (m : Main) : Except String Handle :=
  if m.Filename ≠ "" then env.openOffline m.Filename
  else env.openLive m.Iface m.Snaplen m.Promisc m.Timeout

/-- `NewNetSource` (src/picap.go lines 95-119), translated statement by
statement: open offline iff `Filename != ""`, otherwise open live; on open
failure return the `"open error: "` wrapped error; then install the BPF
filter, on failure returning the `"error setting bpf filter: "` wrapped
error; finally build the `NetSource` with counter 0 (and `debug` false — the
`Run` method sets it afterwards) over the handle's packet stream. -/
def Main.NewNetSource (env : PcapEnv) (m : Main) : Except String NetSource :=
  match openHandle env m with
  | Except.error e => Except.error ("open error: " ++ e)
  | Except.ok h =>
    match env.setBPFFilter h m.Filter with
    | Except.error e => Except.error ("error setting bpf filter: " ++ e)
    | Except.ok h2 => Except.ok { num := 0, debug := false, packets := h2.packets }

/-! Concrete example values used by counterexamples and witnesses. -/

/-- A packet whose link-layer decode failed: gopacket reports an error layer
with a non-nil error; the on-wire length recorded in the metadata is 42. -/
def pktDecodeErr : RawPacket := ⟨some (some ("truncated")), 42, none, none, none⟩

/-- A well-formed packet of length 64 with no network layer. -/
def pktNoNet : RawPacket := ⟨none, 64, none, none, none⟩

/-- A second well-formed packet with no network layer, length 65. -/
def pktNoNet2 : RawPacket := ⟨none, 65, none, none, none⟩

/-- An IPv4 network layer between two addresses. -/
def netEx : NetworkLayer := ⟨"IPv4", ⟨"10.0.0.1", "10.0.0.2"⟩⟩

/-- TCP header flags with only SYN and ACK set. -/
def synAck : TCPFlags := ⟨false, true, false, false, true, false, false, false, false⟩

/-- A transport layer that is a `*layers.TCP` carrying SYN+ACK flags. -/
def tcpLayerEx : TransportLayer := ⟨"TCP", ⟨"443", "51000"⟩, some synAck⟩

/-- A transport layer that is UDP (the dynamic TCP type check fails). -/
def udpLayerEx : TransportLayer := ⟨"UDP", ⟨"53", "51001"⟩, none⟩

/-- A TCP packet with SYN and ACK set and no application payload. -/
def pktTCP : RawPacket := ⟨none, 74, some netEx, some tcpLayerEx, none⟩

/-- A UDP packet with no application payload. -/
def pktUDP : RawPacket := ⟨none, 90, some netEx, some udpLayerEx, none⟩

/-- The parsed form of a GET request with a Host and a User-Agent header. -/
def reqEx : HTTPRequest := ⟨"GET", "example.com", "curl/8.0"⟩

/-- An application layer whose payload parses as `reqEx`. -/
def appHTTP : AppLayer := ⟨"Payload", some reqEx⟩

/-- An application layer whose payload (arbitrary binary) fails the HTTP
request parse. -/
def appBin : AppLayer := ⟨"Payload", none⟩

/-- A full TCP packet whose application payload is a valid HTTP request. -/
def pktHTTP : RawPacket := ⟨none, 200, some netEx, some tcpLayerEx, some appHTTP⟩

/-- A full TCP packet whose application payload is not a valid HTTP request. -/
def pktBin : RawPacket := ⟨none, 150, some netEx, some tcpLayerEx, some appBin⟩

/-- An exhausted-to-be offline source: capture file with exactly two packets. -/
def offlineSrc : NetSource := ⟨0, false, [pktNoNet, pktNoNet2]⟩

/-- An offline source over a one-packet capture file. -/
def oneShotSrc : NetSource := ⟨0, false, [pktNoNet]⟩

/-- A pcap environment in which opening succeeds but every filter install
fails (e.g. a syntactically invalid BPF expression). -/
def envFilterFail : PcapEnv :=
  { openOffline := fun _ => Except.ok ⟨"EN10MB", []⟩,
    openLive := fun _ _ _ _ => Except.ok ⟨"EN10MB", []⟩,
    setBPFFilter := fun _ _ => Except.error ("syntax error") }

/-- A pcap environment in which everything succeeds and the offline handle
delivers one packet. -/
def envOk : PcapEnv :=
  { openOffline := fun _ => Except.ok ⟨"EN10MB", [pktNoNet]⟩,
    openLive := fun _ _ _ _ => Except.ok ⟨"EN10MB", []⟩,
    setBPFFilter := fun h _ => Except.ok h }

/-- A config naming both an interface and a capture file. -/
def mBoth : Main := ⟨"eth0", "capture.pcap", 1500, true, 1000000, "tcp", false⟩

/-- A live-capture config: empty `Filename`. -/
def mLive : Main := ⟨"eth0", "", 1500, true, 1000000, "tcp", false⟩

/-! Helper lemmas shared by the claim theorems. -/

/-- `hasDecodeError` is false exactly when there is no error layer or the
error layer carries a nil error. -/
theorem hasDecodeError_false_iff (pkt : RawPacket) :
    pkt.hasDecodeError = false ↔
      pkt.errorLayer = none ∨ pkt.errorLayer = some none := by
  unfold RawPacket.hasDecodeError
  rcases pkt.errorLayer with _ | ⟨_ | msg⟩ <;> simp

/-- The error component of `reifyPacket` depends only on the error layer. -/
theorem reifyPacket_err_eq (pkt : RawPacket) :
    (reifyPacket pkt).2 =
      match pkt.errorLayer with
      | some (some msg) => some ("decoding packet: " ++ msg)
      | _ => none := by
  obtain ⟨eL, len, nL, tL, aL⟩ := pkt
  rcases eL with _ | ⟨_ | msg⟩ <;>
  rcases nL with _ | ⟨nP, nF⟩ <;>
  rcases tL with _ | ⟨tP, tF, _ | f⟩ <;>
  rcases aL with _ | ⟨aP, _ | req⟩ <;>
  simp [reifyPacket]

/-- C1, counterexample: `reifyPacket` tests the error layer before assigning
`Length` (src/picap.go lines 169-172), so for a packet whose link-layer decode
failed and whose metadata length is 42, the record returned alongside the
`DecodeError` has `Length = 0`, not 42 — `Length` is not set first. -/
theorem c1_length_not_set_on_decode_error :
    (reifyPacket pktDecodeErr).2.isSome = true
    ∧ pktDecodeErr.length = 42
    ∧ (reifyPacket pktDecodeErr).1.Length = 0 := by
  refine ⟨rfl, rfl, rfl⟩

/-- C1 (amended): `reifyPacket` checks the link-layer error first; when the
link-layer decode failed it returns the zero-valued Record (in particular
`Length = 0`) together with the `DecodeError`.  Only when there is no
link-layer error does it set `Length` from the packet metadata before the
remaining steps, and then a packet lacking a network layer yields a Record
with only `Length` set and no error. -/
theorem c1_amended_length_after_error_check (pkt : RawPacket) :
    (pkt.hasDecodeError = true →
      ∃ msg, reifyPacket pkt = (Packet.zero, some ("decoding packet: " ++ msg)))
    ∧ (pkt.hasDecodeError = false → pkt.networkLayer = none →
      reifyPacket pkt = ({ Packet.zero with Length := pkt.length }, none)) := by
  constructor
  · intro h
    rcases hE : pkt.errorLayer with _ | ⟨_ | msg⟩
    · rw [RawPacket.hasDecodeError, hE] at h; cases h
    · rw [RawPacket.hasDecodeError, hE] at h; cases h
    · exact ⟨msg, by simp [reifyPacket, hE]⟩
  · intro h hN
    rcases (hasDecodeError_false_iff pkt).mp h with hE | hE <;>
      simp [reifyPacket, hE, hN]

/-- C1 witness: the amended theorem applied to the malformed packet and to a
64-byte packet without a network layer. -/
theorem c1_amended_witness :
    (∃ msg, reifyPacket pktDecodeErr = (Packet.zero, some ("decoding packet: " ++ msg)))
    ∧ reifyPacket pktNoNet = ({ Packet.zero with Length := (64 : Int) }, none) :=
  ⟨(c1_amended_length_after_error_check pktDecodeErr).1 rfl,
   (c1_amended_length_after_error_check pktNoNet).2 rfl rfl⟩

/-- C2: code bug at stream exhaustion.  Driving an offline source over a
two-packet capture file, the first two `Record` calls return the two decoded
records in file order, but the third call does not return any end-of-stream
signal: the packet channel is closed, `<-n.packets` yields the nil packet,
and `reifyPacket` dereferences it (src/picap.go lines 133 and 169), a runtime
panic. -/
theorem c2_offline_exhaustion_panics :
    (runRecords offlineSrc 3).1 =
      [RecordOutcome.ok { Packet.zero with Length := (64 : Int) } none,
       RecordOutcome.ok { Packet.zero with Length := (65 : Int) } none,
       RecordOutcome.panicked] := by
  decide

/-- C3: `reifyPacket` returns a non-nil error iff the packet's error layer
reports a structural decode error; in that case the partially filled Record
is returned alongside the `DecodeError`; and the condition is non-fatal: a
`Record` call consumes exactly its own packet, so the source continues with
the remaining packets whatever the decode outcome. -/
theorem c3_decode_error_iff (pkt : RawPacket) (n : NetSource) :
    ((reifyPacket pkt).2.isSome = true ↔ pkt.hasDecodeError = true)
    ∧ (∀ msg, pkt.errorLayer = some (some msg) →
        reifyPacket pkt = (Packet.zero, some ("decoding packet: " ++ msg)))
    ∧ (n.packets ≠ [] → (n.Record.2.1).packets = n.packets.tail) := by
  refine ⟨?_, ?_, ?_⟩
  · rw [reifyPacket_err_eq]
    unfold RawPacket.hasDecodeError
    rcases pkt.errorLayer with _ | ⟨_ | msg⟩ <;> simp
  · intro msg hE
    simp [reifyPacket, hE]
  · intro h
    obtain ⟨num, dbg, pkts⟩ := n
    rcases pkts with _ | ⟨p, ps⟩
    · cases h rfl
    · simp [NetSource.Record]

/-- C3 witness: the malformed packet yields an error and the zero record;
a well-formed packet yields no error; a source holding the malformed packet
followed by a good one continues with the good one after the error. -/
theorem c3_decode_error_iff_witness :
    ((reifyPacket pktDecodeErr).2.isSome = true ↔ pktDecodeErr.hasDecodeError = true)
    ∧ reifyPacket pktDecodeErr = (Packet.zero, some ("decoding packet: truncated"))
    ∧ ((⟨0, false, [pktDecodeErr, pktNoNet]⟩ : NetSource).Record.2.1).packets = [pktNoNet] :=
  ⟨(c3_decode_error_iff pktDecodeErr oneShotSrc).1,
   (c3_decode_error_iff pktDecodeErr oneShotSrc).2.1 ("truncated") rfl,
   (c3_decode_error_iff pktDecodeErr ⟨0, false, [pktDecodeErr, pktNoNet]⟩).2.2 (by decide)⟩

/-- C4: for a packet with network and transport layers and no link-layer
error, the decoded record's `TransProto` is the transport layer's protocol
name, and the `TCP` sub-record equals the header's nine flags when the
transport layer is a `*layers.TCP` and stays at the zero value (all flags
false, the Go encoding of "absent") otherwise. -/
theorem c4_tcp_flags (pkt : RawPacket) (nl : NetworkLayer) (tl : TransportLayer)
    (hE : pkt.hasDecodeError = false)
    (hN : pkt.networkLayer = some nl)
    (hT : pkt.transportLayer = some tl) :
    (reifyPacket pkt).1.TransProto = tl.layerType
    ∧ (reifyPacket pkt).1.TCP = tl.tcp.getD TCPFlags.zero := by
  obtain ⟨tP, tF, tTCP⟩ := tl
  rcases (hasDecodeError_false_iff pkt).mp hE with h | h <;>
  rcases tTCP with _ | f <;>
  rcases hA : pkt.appLayer with _ | ⟨aP, _ | req⟩ <;>
  simp [reifyPacket, h, hN, hT, hA, Packet.zero]

/-- C4 witness: a TCP packet with only SYN and ACK set decodes to
`SYN = true, ACK = true` and the other seven flags false; a UDP packet gets
`TransProto = "UDP"` and a zero-valued (absent) `TCP` sub-record. -/
theorem c4_tcp_flags_witness :
    (reifyPacket pktTCP).1.TransProto = "TCP"
    ∧ (reifyPacket pktTCP).1.TCP = synAck
    ∧ synAck.SYN = true ∧ synAck.ACK = true
    ∧ synAck.FIN = false ∧ synAck.RST = false ∧ synAck.PSH = false
    ∧ synAck.URG = false ∧ synAck.ECE = false ∧ synAck.CWR = false
    ∧ synAck.NS = false
    ∧ (reifyPacket pktUDP).1.TransProto = "UDP"
    ∧ (reifyPacket pktUDP).1.TCP = TCPFlags.zero := by
  have h1 := c4_tcp_flags pktTCP netEx tcpLayerEx rfl rfl rfl
  have h2 := c4_tcp_flags pktUDP netEx udpLayerEx rfl rfl rfl
  exact ⟨h1.1, h1.2, rfl, rfl, rfl, rfl, rfl, rfl, rfl, rfl, rfl, h2.1, h2.2⟩

/-- C5: when the application payload fails the HTTP request parse, the `HTTP`
sub-record stays entirely at its zero value (absent) and `reifyPacket`
returns no error. -/
theorem c5_http_failure_silent (pkt : RawPacket) (nl : NetworkLayer)
    (tl : TransportLayer) (al : AppLayer)
    (hE : pkt.hasDecodeError = false)
    (hN : pkt.networkLayer = some nl)
    (hT : pkt.transportLayer = some tl)
    (hA : pkt.appLayer = some al)
    (hR : al.httpRequest = none) :
    (reifyPacket pkt).1.HTTP = HTTPInfo.zero ∧ (reifyPacket pkt).2 = none := by
  obtain ⟨tP, tF, tTCP⟩ := tl
  obtain ⟨aP, hr⟩ := al
  simp only [AppLayer.httpRequest] at hR
  subst hR
  rcases (hasDecodeError_false_iff pkt).mp hE with h | h <;>
  rcases tTCP with _ | f <;>
  simp [reifyPacket, h, hN, hT, hA, Packet.zero]

/-- C5 witness: a TCP packet carrying a non-HTTP binary payload decodes with
an absent (zero-valued) `HTTP` sub-record and no error. -/
theorem c5_http_failure_silent_witness :
    (reifyPacket pktBin).1.HTTP = HTTPInfo.zero ∧ (reifyPacket pktBin).2 = none :=
  c5_http_failure_silent pktBin netEx tcpLayerEx appBin rfl rfl rfl rfl rfl

/-- C6: when the application payload parses as an HTTP request, `AppProto` is
set to the application layer's protocol name, `HTTP.Method` to the request
method, `HTTP.Hostname` to the request's host, `HTTP.UserAgent` to the
User-Agent header value (empty when absent), and no error is returned. -/
theorem c6_http_success (pkt : RawPacket) (nl : NetworkLayer)
    (tl : TransportLayer) (al : AppLayer) (req : HTTPRequest)
    (hE : pkt.hasDecodeError = false)
    (hN : pkt.networkLayer = some nl)
    (hT : pkt.transportLayer = some tl)
    (hA : pkt.appLayer = some al)
    (hR : al.httpRequest = some req) :
    (reifyPacket pkt).1.AppProto = al.layerType
    ∧ (reifyPacket pkt).1.HTTP = ⟨req.host, req.userAgent, req.method⟩
    ∧ (reifyPacket pkt).2 = none := by
  obtain ⟨tP, tF, tTCP⟩ := tl
  obtain ⟨aP, hr⟩ := al
  simp only [AppLayer.httpRequest] at hR
  subst hR
  rcases (hasDecodeError_false_iff pkt).mp hE with h | h <;>
  rcases tTCP with _ | f <;>
  simp [reifyPacket, h, hN, hT, hA]

/-- C6 witness: a GET request for host example.com with User-Agent curl/8.0
decodes to `Method = "GET"`, `Hostname = "example.com"`,
`UserAgent = "curl/8.0"`, with `AppProto` set and no error. -/
theorem c6_http_success_witness :
    (reifyPacket pktHTTP).1.AppProto = "Payload"
    ∧ (reifyPacket pktHTTP).1.HTTP = ⟨"example.com", "curl/8.0", "GET"⟩
    ∧ (reifyPacket pktHTTP).2 = none :=
  c6_http_success pktHTTP netEx tcpLayerEx appHTTP reqEx rfl rfl rfl rfl rfl

/-- C7, counterexample: in `NetSource.Record` (src/picap.go lines 127-134)
the counter increment is the first statement, before the packet is received
and decoded — not after the decode as claimed.  On a one-packet source the
step trace is increment, receive, decode, return, which differs from the
claimed receive, decode, increment, return. -/
theorem c7_increment_before_receive :
    recordTrace oneShotSrc =
      [StepEvent.counterIncrement, StepEvent.packetReceive,
       StepEvent.packetDecode, StepEvent.recordReturn]
    ∧ recordTrace oneShotSrc ≠
      [StepEvent.packetReceive, StepEvent.packetDecode,
       StepEvent.counterIncrement, StepEvent.recordReturn] := by
  decide

/-- C7 (amended): in every `Record` call on a non-exhausted source the
counter is incremented first, then the raw packet is obtained from the
capture source, decoded, and the Record returned; each successful call
yields exactly one Record (the decode of the packet it consumed) and
advances the count by exactly one. -/
theorem c7_amended_order (n : NetSource) (p : RawPacket) (ps : List RawPacket)
    (h : n.packets = p :: ps) :
    recordTrace n =
      [StepEvent.counterIncrement, StepEvent.packetReceive,
       StepEvent.packetDecode, StepEvent.recordReturn]
    ∧ (n.Record.2.1).num = (n.num + 1) % 2 ^ 64
    ∧ (n.Record.2.1).packets = ps
    ∧ n.Record.1 = RecordOutcome.ok (reifyPacket p).1 (reifyPacket p).2 := by
  refine ⟨?_, ?_, ?_, ?_⟩ <;> simp [recordTrace, NetSource.Record, h]

/-- C7 witness: the amended theorem applied to a one-packet source. -/
theorem c7_amended_order_witness :
    recordTrace oneShotSrc =
      [StepEvent.counterIncrement, StepEvent.packetReceive,
       StepEvent.packetDecode, StepEvent.recordReturn]
    ∧ (oneShotSrc.Record.2.1).num = (oneShotSrc.num + 1) % 2 ^ 64
    ∧ (oneShotSrc.Record.2.1).packets = []
    ∧ oneShotSrc.Record.1
        = RecordOutcome.ok (reifyPacket pktNoNet).1 (reifyPacket pktNoNet).2 :=
  c7_amended_order oneShotSrc pktNoNet [] rfl

/-- C8: `NewNetSource` installs the BPF filter immediately after opening the
handle; if the install fails, session creation fails with the filter error
and no session is returned, and any successfully created session comes from
a handle on which the filter was installed successfully — so no packet is
ever yielded from a session whose filter was not installed. -/
theorem c8_filter_installed_or_fail (env : PcapEnv) (m : Main) :
    (∀ h e, openHandle env m = Except.ok h →
      env.setBPFFilter h m.Filter = Except.error e →
      Main.NewNetSource env m = Except.error ("error setting bpf filter: " ++ e)
      ∧ ∀ ns, Main.NewNetSource env m ≠ Except.ok ns)
    ∧ (∀ ns, Main.NewNetSource env m = Except.ok ns →
      ∃ h h2, openHandle env m = Except.ok h
        ∧ env.setBPFFilter h m.Filter = Except.ok h2
        ∧ ns.packets = h2.packets) := by
  constructor
  · intro h e hOpen hFilt
    constructor
    · simp [Main.NewNetSource, hOpen, hFilt]
    · intro ns
      simp [Main.NewNetSource, hOpen, hFilt]
  · intro ns hOk
    unfold Main.NewNetSource at hOk
    split at hOk
    · simp at hOk
    · rename_i h hOpen
      split at hOk
      · simp at hOk
      · rename_i h2 hFilt
        refine ⟨h, h2, hOpen, hFilt, ?_⟩
        rw [← Except.ok.inj hOk]

/-- C8 witness: with an environment whose filter install always fails, a
session over a capture file is refused with the filter error. -/
theorem c8_filter_installed_or_fail_witness :
    Main.NewNetSource envFilterFail mBoth
      = Except.error ("error setting bpf filter: " ++ "syntax error") :=
  (((c8_filter_installed_or_fail envFilterFail mBoth).1
      ⟨"EN10MB", []⟩ ("syntax error") rfl rfl)).1

/-- C9: the diagnostic line in `Record` (src/picap.go lines 130-132) is
logged exactly when debug is enabled and the just-incremented count satisfies
count mod 1000 = 20. -/
theorem c9_diag_log_iff (n : NetSource) :
    n.Record.2.2 = true ↔
      (n.debug = true ∧ ((n.num + 1) % 2 ^ 64) % 1000 = 20) := by
  obtain ⟨num, dbg, pkts⟩ := n
  rcases pkts with _ | ⟨p, ps⟩ <;>
  simp [NetSource.Record, Bool.and_eq_true, beq_iff_eq]

/-- C10: the source mode is selected solely from `Filename`
(src/picap.go lines 98-102): a non-empty `Filename` opens offline from that
file and `Iface`, `Snaplen`, `Promisc` and `Timeout` are ignored (providing
both an interface and a file is not rejected — the file takes precedence);
an empty `Filename` attempts a live capture. -/
theorem c10_filename_selects_mode (env : PcapEnv) (m : Main) :
    (m.Filename ≠ "" →
      openHandle env m = env.openOffline m.Filename
      ∧ ∀ i s pr t,
          Main.NewNetSource env ⟨i, m.Filename, s, pr, t, m.Filter, m.Debug⟩
            = Main.NewNetSource env m)
    ∧ (m.Filename = "" →
      openHandle env m = env.openLive m.Iface m.Snaplen m.Promisc m.Timeout) := by
  constructor
  · intro h
    constructor
    · simp [openHandle, h]
    · intro i s pr t
      simp [Main.NewNetSource, openHandle, h]
  · intro h
    simp [openHandle, h]

/-- C10 witness: with both an interface and a file configured, the offline
branch is taken and changing interface, snap length, promiscuous flag and
timeout leaves the result unchanged; with an empty filename the live branch
is taken. -/
theorem c10_filename_selects_mode_witness :
    (openHandle envOk mBoth = envOk.openOffline ("capture.pcap")
      ∧ Main.NewNetSource envOk ⟨"wlan0", "capture.pcap", 9000, false, 5, "tcp", false⟩
          = Main.NewNetSource envOk mBoth)
    ∧ openHandle envOk mLive = envOk.openLive ("eth0") 1500 true 1000000 := by
  have h1 := (c10_filename_selects_mode envOk mBoth).1 (by decide)
  have h2 := (c10_filename_selects_mode envOk mLive).2 rfl
  exact ⟨⟨h1.1, h1.2 ("wlan0") 9000 false 5⟩, h2⟩

end Picap
